import Mathlib

/-!
Verification of the widget-generation pipeline of openbb-platform-pro-backend.

The Python sources openbb_platform_pro_backend/utils.py and
openbb_platform_pro_backend/main.py transform an OpenAPI description into a
mapping of widget descriptors.  This file gives a shallow embedding of the
relevant data model and of the transformation functions, and proves or refutes
the specified properties.

Modelling conventions:
* Python dicts whose iteration order matters are modelled as association lists
  of type List (String × α); key lookup takes the first matching entry and
  assignment replaces the value in place (Python dicts have unique keys, and
  every map built by the pipeline keeps that invariant).
* Python code that can raise (KeyError on direct indexing of a missing key,
  NameError on an unbound variable, IndexError on an empty list) is modelled
  in the Except String monad, with the error string naming the exception.
* datetime.now() is modelled by an explicit parameter today : Nat, the number
  of days since 1970-01-01 at generation time; only the calendar date is ever
  observed by the code, via strftime of the date 90 days earlier.
* list(set(xs)) deduplicates with an order that CPython leaves unspecified;
  the model fixes the first-occurrence order (pyListSet below), which has the
  same underlying value set.
-/

namespace OpenBBBackend

/-- Scalar JSON values, as they appear in OpenAPI enum lists. -/
inductive JVal where
  | str (s : String)
  | int (n : Int)
  | bool (b : Bool)
  | null
  deriving DecidableEq, Repr

/-- Values stored in the optional map of a query schema: an enum value list,
the placeholder string, the integer sentinel 0, or null. -/
inductive QVal where
  | vals (xs : List JVal)
  | str (s : String)
  | int (n : Int)
  | null
  deriving DecidableEq, Repr

/-- Lookup in a Python dict modelled as an association list (first match). -/
def pyLookup {α : Type} : List (String × α) → String → Option α
  | [], _ => none
  | (k', v) :: rest, k => if k' = k then some v else pyLookup rest k

/-- Python dict assignment: replace the value in place when the key exists,
keeping its position, else append the new entry at the end. -/
def pyInsert {α : Type} : List (String × α) → String → α → List (String × α)
  | [], k, v => [(k, v)]
  | (k', v') :: rest, k, v =>
    if k' = k then (k, v) :: rest else (k', v') :: pyInsert rest k v

/-- Member of an anyOf union inside a parameter type descriptor; the code
reads only its optional enum and type keys. -/
structure ParamSubSchema where
  enum : Option (List JVal)
  type : Option String
  deriving DecidableEq, Repr

/-- Parameter type descriptor: optional enum, anyOf and type keys. -/
structure ParamSchema where
  enum : Option (List JVal)
  anyOf : Option (List ParamSubSchema)
  type : Option String
  deriving DecidableEq, Repr

/-- Operation parameter; the Python key named in is rendered inLoc because in
is a reserved word in Lean. -/
structure Param where
  name : String
  inLoc : String
  schema : ParamSchema
  deriving DecidableEq, Repr

/-- JSON object read only for its dollar-ref key. -/
structure RefObj where
  ref : Option String
  deriving DecidableEq, Repr

/-- Media-type object: an optional schema object holding a reference. -/
structure MediaType where
  schema : Option RefObj
  deriving DecidableEq, Repr

/-- Response object: an optional content map keyed by media-type string. -/
structure RespObj where
  content : Option (List (String × MediaType))
  deriving DecidableEq, Repr

/-- Items object of a results descriptor: an optional oneOf list of
reference objects. -/
structure ItemsObj where
  oneOf : Option (List RefObj)
  deriving DecidableEq, Repr

/-- Member of the anyOf list of a results descriptor: an optional items
object. -/
structure AnyOfItem where
  items : Option ItemsObj
  deriving DecidableEq, Repr

/-- Property descriptor of a named schema: the optional title, type and
format keys read for column synthesis, and the optional anyOf nesting read
when the property is the results descriptor. -/
structure PropDesc where
  title : Option String
  type : Option String
  format : Option String
  anyOf : Option (List AnyOfItem)
  deriving DecidableEq, Repr

/-- Named schema from components.schemas: an optional properties map. -/
structure NamedSchema where
  properties : Option (List (String × PropDesc))
  deriving DecidableEq, Repr

/-- Operation object: the keys read by the pipeline. -/
structure Operation where
  operationId : Option String
  description : String
  tags : List String
  parameters : Option (List Param)
  responses : List (String × RespObj)
  deriving DecidableEq, Repr

/-- Components section: the schemas map. -/
structure Components where
  schemas : List (String × NamedSchema)
  deriving DecidableEq, Repr

/-- OpenAPI interface description: paths (route → method → operation) and
components. -/
structure OpenAPI where
  paths : List (String × List (String × Operation))
  components : Components
  deriving DecidableEq, Repr

/-- Check whether the first character list is a prefix of the second. -/
def prefixOfChars : List Char → List Char → Bool
  | [], _ => true
  | _ :: _, [] => false
  | a :: as, b :: bs => a == b && prefixOfChars as bs

/-- Python str.replace on character lists: replace every nonoverlapping
occurrence of pat, scanning left to right; fuel bounds the recursion by the
input length (pat is nonempty at every use site). -/
def pyReplaceAux (pat rep : List Char) : Nat → List Char → List Char
  | _, [] => []
  | 0, cs => cs
  | fuel + 1, c :: cs =>
    if prefixOfChars pat (c :: cs) then
      rep ++ pyReplaceAux pat rep fuel (List.drop (pat.length - 1) cs)
    else
      c :: pyReplaceAux pat rep fuel cs

/-- Python str.replace. -/
def pyReplace (s pat rep : String) : String :=
  String.mk (pyReplaceAux pat.data rep.data s.data.length s.data)

/-- Split a character list on a separator character, Python split semantics. -/
def splitOnChar (c : Char) : List Char → List (List Char)
  | [] => [[]]
  | d :: ds =>
    match splitOnChar c ds with
    | [] => [[]]
    | g :: gs => if d == c then [] :: g :: gs else (d :: g) :: gs

/-- Last component of a slash-separated reference string, as computed by
ref.split("/")[-1] in the source. -/
def refTail (s : String) : String :=
  String.mk ((splitOnChar '/' s.data).getLastD [])

/-- Python str.title over ASCII text: a letter is uppercased when the
previous character is not a letter and lowercased otherwise. -/
def pyTitleGo : List Char → Bool → List Char
  | [], _ => []
  | c :: cs, prevAlpha =>
    (if c.isAlpha then (if prevAlpha then c.toLower else c.toUpper) else c)
      :: pyTitleGo cs c.isAlpha

/-- Python str.title. -/
def pyTitle (s : String) : String :=
  String.mk (pyTitleGo s.data false)

/-- Gregorian calendar date (year, month, day) for a day count since
1970-01-01, by the era-based civil-from-days conversion. -/
def civilFromDays (days : Nat) : Nat × Nat × Nat :=
  let z := days + 719468
  let era := z / 146097
  let doe := z % 146097
  let yoe := (doe - doe / 1460 + doe / 36524 - doe / 146096) / 365
  let y := yoe + era * 400
  let doy := doe - (365 * yoe + yoe / 4 - yoe / 100)
  let mp := (5 * doy + 2) / 153
  let d := doy - (153 * mp + 2) / 5 + 1
  let m := if mp < 10 then mp + 3 else mp - 9
  ((if m ≤ 2 then y + 1 else y), m, d)

/-- Left-pad a numeral string with zeros up to the given width. -/
def padZero (width : Nat) (s : String) : String :=
  String.mk (List.replicate (width - s.length) '0') ++ s

/-- Format a (year, month, day) triple the way strftime %Y-%m-%d does. -/
def fmtYMD : Nat × Nat × Nat → String
  | (y, m, d) =>
    padZero 4 (toString y) ++ "-" ++ padZero 2 (toString m) ++ "-" ++
      padZero 2 (toString d)

/-- Value forced for parameters named start_date: the date 90 days before the
generation day, formatted YYYY-MM-DD (utils.py lines 67 to 71). -/
def startDateStr (today : Nat) : String :=
  fmtYMD (civilFromDays (today - 90))

/-- Query-schema dict as built by get_query_schema_for_widget: the optional
map, plus the top-level chart key added later to chart-variant params. -/
structure Params where
  optional : List (String × QVal)
  chart : Option Bool
  deriving DecidableEq, Repr

/-- Deduplication of a value list, modelling list(set(enums)): the underlying
value set of the Python expression; the model fixes the first-occurrence
order, the CPython iteration order of a set being unspecified. -/
def pyListSet (xs : List JVal) : List JVal :=
  xs.foldl (fun acc v => if v ∈ acc then acc else acc ++ [v]) []

/-- Classification of one parameter type descriptor into its query-schema
value, mirroring the if and elif chain of get_query_schema_for_widget
(utils.py lines 36 to 64); none means the parameter contributes no entry. -/
def classifyParamSchema (ps : ParamSchema) : Option QVal :=
  match ps.enum with
  | some vs => some (.vals vs)
  | none =>
    match ps.anyOf with
    | some subs =>
      let enums :=
        subs.foldl (fun acc s => acc ++ (match s.enum with | some es => es | none => [])) []
      if enums ≠ [] then
        some (.vals (pyListSet enums))
      else
        let types := subs.filterMap (fun s => s.type)
        if "string" ∈ types then some (.str "string")
        else if "integer" ∈ types then some (.int 0)
        else if "null" ∈ types then some .null
        else none
    | none =>
      match ps.type with
      | some "string" => some (.str "string")
      | some "integer" => some (.int 0)
      | _ => none

/-- Processing of one parameter by the loop body of
get_query_schema_for_widget; the state is the optional map under construction
and the has-chart flag. -/
def processParam (today : Nat) (st : List (String × QVal) × Bool) (p : Param) :
    List (String × QVal) × Bool :=
  if p.inLoc = "query" then
    if p.name = "sort" ∨ p.name = "limit" ∨ p.name = "order" then st
    else if p.name = "chart" then (st.1, true)
    else
      let opt :=
        match classifyParamSchema p.schema with
        | some v => pyInsert st.1 p.name v
        | none => st.1
      let opt :=
        if p.name = "start_date" then
          pyInsert opt "start_date" (.str (startDateStr today))
        else opt
      (opt, st.2)
  else st

/-- Parameter list of an operation, as read by
command_schema.get("parameters", []): the empty list when the key is
missing. -/
def opParams (op : Operation) : List Param :=
  match op.parameters with
  | some l => l
  | none => []

/-- Embedding of get_query_schema_for_widget (utils.py): builds the query
schema and the has-chart flag for a route.  Errors model the KeyError raised
by the direct indexing of paths and of the get method. -/
def get_query_schema_for_widget (openapi : OpenAPI) (command_route : String)
    (today : Nat) : Except String (Params × Bool) :=
  match pyLookup openapi.paths command_route with
  | none => .error "KeyError paths"
  | some methods =>
    match pyLookup methods "get" with
    | none => .error "KeyError get"
    | some command_schema =>
      let r := (opParams command_schema).foldl (processParam today) ([], false)
      .ok ({ optional := r.1, chart := none }, r.2)

/-- Every operation of the description, in path and method iteration order,
as scanned by get_data_schema_for_widget. -/
def allOps (openapi : OpenAPI) : List Operation :=
  openapi.paths.foldl (fun acc pm => acc ++ pm.2.map (fun mo => mo.2)) []

/-- Embedding of get_data_schema_for_widget (utils.py): ok none is the
not-found sentinel; errors model the KeyError raised while resolving the
response reference chain or the schema name of the first matched operation. -/
def get_data_schema_for_widget (openapi : OpenAPI) (operation_id : String) :
    Except String (Option NamedSchema) :=
  match (allOps openapi).find?
      (fun details => decide (details.operationId = some operation_id)) with
  | none => .ok none
  | some details =>
    match pyLookup details.responses "200" with
    | none => .error "KeyError 200"
    | some resp =>
      match resp.content with
      | none => .error "KeyError content"
      | some content =>
        match pyLookup content "application/json" with
        | none => .error "KeyError application json"
        | some media =>
          match media.schema with
          | none => .error "KeyError schema"
          | some refObj =>
            match refObj.ref with
            | none => .error "KeyError ref"
            | some response_ref =>
              match pyLookup openapi.components.schemas (refTail response_ref) with
              | none => .error "KeyError schema name"
              | some s => .ok (some s)

/-- Referenced schema names found under the nested anyOf, items, oneOf, ref
path of a results descriptor (utils.py lines 107 to 119). -/
def extractSchemaRefs (d : PropDesc) : List String :=
  match d.anyOf with
  | none => []
  | some items =>
    items.foldl (fun acc item =>
      match item.items with
      | some io =>
        match io.oneOf with
        | some refs => acc ++ (refs.filterMap (fun r => r.ref)).map refTail
        | none => acc
      | none => acc) []

/-- Resolution of extracted references in components.schemas; references with
no entry are silently dropped (utils.py lines 122 to 126). -/
def resolveSchemas (openapi : OpenAPI) (refs : List String) : List NamedSchema :=
  refs.filterMap (fun r => pyLookup openapi.components.schemas r)

/-- Column definition produced by the synthesizer. -/
structure ColumnDef where
  field : String
  headerName : String
  cellDataType : String
  chartDataType : String
  formatterFn : Option String
  deriving DecidableEq, Repr

/-- Construction of one column definition from a property descriptor,
mirroring the loop body of data_schema_to_columns_defs
(utils.py lines 141 to 164). -/
def columnDefOf (key : String) (prop : PropDesc) : ColumnDef :=
  let prop_type := match prop.type with | some t => t | none => "string"
  let cell_data_type :=
    if prop_type = "number" ∨ prop_type = "integer" then "number"
    else
      match prop.format with
      | some f => if f = "date" ∨ f = "date-time" then "date" else "text"
      | none => "text"
  { field := key
    headerName := match prop.title with | some t => t | none => pyTitle key
    cellDataType := cell_data_type
    chartDataType := if cell_data_type = "number" then "series" else "category"
    formatterFn :=
      if cell_data_type = "date" then some "date"
      else if cell_data_type = "number" then some "int"
      else none }

/-- Embedding of data_schema_to_columns_defs (utils.py).  When several
schemas resolve, Python iterates the intersection as a set with unspecified
order; the model iterates the key order of the first schema, which yields the
same key set.  Errors model the KeyError raised when a resolved schema has no
properties key. -/
def data_schema_to_columns_defs (openapi : OpenAPI) (result_schema_ref : PropDesc) :
    Except String (List ColumnDef) :=
  let schemas := resolveSchemas openapi (extractSchemaRefs result_schema_ref)
  match schemas with
  | [] => .ok []
  | s0 :: rest =>
    match s0.properties with
    | none => .error "KeyError properties"
    | some props0 =>
      match rest.mapM (fun s => s.properties) with
      | none => .error "KeyError properties"
      | some restProps =>
        let commonEntries :=
          if rest.isEmpty then props0
          else
            props0.filter (fun kv =>
              restProps.all (fun ps => ps.any (fun kv' => decide (kv'.1 = kv.1))))
        .ok (commonEntries.map (fun kv => columnDefOf kv.1 kv.2))

/-- Fixed layout hint of every widget. -/
structure GridData where
  w : Nat
  h : Nat
  deriving DecidableEq, Repr

/-- Table block of the data section. -/
structure TableBlock where
  showAll : Bool
  columnsDefs : Option (List ColumnDef)
  index : Option String
  deriving DecidableEq, Repr

/-- Chart block of the data section. -/
structure ChartBlock where
  type : String
  deriving DecidableEq, Repr

/-- Data section of a widget descriptor. -/
structure DataBlock where
  dataKey : String
  table : Option TableBlock
  chart : Option ChartBlock
  deriving DecidableEq, Repr

/-- Widget descriptor as assembled by main.py. -/
structure WidgetConfig where
  name : String
  description : String
  category : String
  widgetType : String
  widgetId : String
  params : Params
  endpoint : String
  gridData : GridData
  data : DataBlock
  defaultViz : Option String
  deriving DecidableEq, Repr

/-- Python equality between a string and a column-definition dict: a str is
never equal to a dict, so the comparison is constantly false.  This models
the element comparisons performed by the membership tests on columns_defs in
main.py lines 75 and 77. -/
def pyStrEqColumnDef (_s : String) (_c : ColumnDef) : Bool := false

/-- Python membership test of a string in the columns_defs list, which
compares the string with each column-definition dict. -/
def pyStrMemColumnsDefs (s : String) (defs : List ColumnDef) : Bool :=
  defs.any (pyStrEqColumnDef s)

/-- Widget entries emitted for one route by the loop body of main.py lines 39
to 98, together with the value of the module-level columns_defs variable
after the iteration.  colsIn is its value before the iteration, none while it
is still unbound; the branch testing it while unbound raises NameError. -/
def routeWidgets (openapi : OpenAPI) (today : Nat)
    (colsIn : Option (List ColumnDef)) (route : String) :
    Except String (List (String × WidgetConfig) × Option (List ColumnDef)) := do
  let methods ← match pyLookup openapi.paths route with
    | some m => Except.ok m
    | none => Except.error "KeyError route"
  let getOp ← match pyLookup methods "get" with
    | some g => Except.ok g
    | none => Except.error "KeyError get"
  let widget_id ← match getOp.operationId with
    | some oid => Except.ok oid
    | none => Except.error "KeyError operationId"
  let qr ← get_query_schema_for_widget openapi route today
  let query_schema := qr.1
  let has_chart := qr.2
  let dschema ← get_data_schema_for_widget openapi widget_id
  let cols ← match dschema with
    | some s =>
      match s.properties with
      | some props =>
        match pyLookup props "results" with
        | some rdesc => do
          let cd ← data_schema_to_columns_defs openapi rdesc
          pure (some cd)
        | none => pure colsIn
      | none => pure colsIn
    | none => pure colsIn
  let tag0 ← match getOp.tags with
    | t :: _ => Except.ok t
    | [] => Except.error "IndexError tags"
  let widget_config : WidgetConfig :=
    { name := "OBB " ++ pyTitle (pyReplace widget_id "_" " ")
      description := getOp.description
      category := pyTitle tag0
      widgetType := tag0
      widgetId := "OBB " ++ widget_id
      params := query_schema
      endpoint := pyReplace route "/api" "api"
      gridData := { w := 20, h := 5 }
      data :=
        { dataKey := "results"
          table := some { showAll := true, columnsDefs := none, index := none }
          chart := none }
      defaultViz := none }
  let columns_defs ← match cols with
    | some cd => Except.ok cd
    | none => Except.error "NameError columns_defs"
  let widget_config :=
    if columns_defs ≠ [] then
      let idx0 : Option String := none
      let idx1 := if pyStrMemColumnsDefs "date" columns_defs then some "date" else idx0
      let idx2 := if pyStrMemColumnsDefs "period" columns_defs then some "period" else idx1
      { widget_config with
          data :=
            { widget_config.data with
                table := some
                  { showAll := true, columnsDefs := some columns_defs, index := idx2 } } }
    else widget_config
  let entries := [(widget_config.widgetId, widget_config)]
  let entries :=
    if has_chart then
      let widget_config_chart : WidgetConfig :=
        { widget_config with
            data :=
              { dataKey := "chart.content"
                table := none
                chart := some { type := "line" } }
            name := widget_config.name ++ " Chart"
            widgetId := widget_config.widgetId ++ "_chart"
            params := { widget_config.params with chart := some true }
            defaultViz := some "chart" }
      entries ++ [(widget_config_chart.widgetId, widget_config_chart)]
    else entries
  pure (entries, cols)

/-- Routes selected for widget generation (main.py lines 36 to 38): paths
starting with the api prefix that declare a get operation. -/
def selectedRoutes (openapi : OpenAPI) : List String :=
  (openapi.paths.filter (fun pm =>
      prefixOfChars "/api".data pm.1.data && (pyLookup pm.2 "get").isSome)).map
    (fun pm => pm.1)

/-- State of the module-level generation loop: the widgets mapping under
construction and the current value of columns_defs, none while unbound. -/
structure GenState where
  widgets : List (String × WidgetConfig)
  columns : Option (List ColumnDef)
  deriving DecidableEq, Repr

/-- One iteration of the generation loop of main.py. -/
def processRoute (openapi : OpenAPI) (today : Nat) (st : GenState) (route : String) :
    Except String GenState := do
  let r ← routeWidgets openapi today st.columns route
  pure { widgets := r.1.foldl (fun m e => pyInsert m e.1 e.2) st.widgets
         columns := r.2 }

/-- Embedding of the module-level generation pass of main.py: the widgets
mapping, parameterized by the generation day. -/
def widgets_json (openapi : OpenAPI) (today : Nat) :
    Except String (List (String × WidgetConfig)) := do
  let st ← (selectedRoutes openapi).foldlM (processRoute openapi today) ⟨[], none⟩
  pure st.widgets

/-! ### Lemmas about the dict model -/

theorem pyLookup_pyInsert_self {α : Type} (m : List (String × α)) (k : String) (v : α) :
    pyLookup (pyInsert m k v) k = some v := by
  induction m with
  | nil => simp [pyInsert, pyLookup]
  | cons e rest ih =>
    obtain ⟨k', v'⟩ := e
    by_cases h : k' = k
    · simp [pyInsert, h, pyLookup]
    · simp [pyInsert, h, pyLookup, ih]

theorem pyLookup_pyInsert_ne {α : Type} (m : List (String × α)) (k k' : String) (v : α)
    (h : k' ≠ k) : pyLookup (pyInsert m k v) k' = pyLookup m k' := by
  have hk : ¬ k = k' := fun hh => h hh.symm
  induction m with
  | nil => simp [pyInsert, pyLookup, hk]
  | cons e rest ih =>
    obtain ⟨k₀, v₀⟩ := e
    by_cases h₀ : k₀ = k
    · subst h₀
      simp [pyInsert, pyLookup, hk]
    · simp [pyInsert, h₀, pyLookup, ih]

theorem pyLookup_of_mem_nodup {α : Type} (m : List (String × α)) (k : String) (v : α)
    (hmem : (k, v) ∈ m) (hnd : (m.map Prod.fst).Nodup) : pyLookup m k = some v := by
  induction m with
  | nil => cases hmem
  | cons e rest ih =>
    obtain ⟨k₀, v₀⟩ := e
    simp only [List.map_cons, List.nodup_cons] at hnd
    rcases List.mem_cons.mp hmem with heq | hrest
    · cases heq
      simp [pyLookup]
    · have hk : k₀ ≠ k := by
        intro hh
        exact hnd.1 (hh ▸ (List.mem_map.mpr ⟨(k, v), hrest, rfl⟩))
      simp [pyLookup, hk, ih hrest hnd.2]

/-! ### Lemmas about pyListSet -/

theorem mem_foldl_pyListSet (xs : List JVal) (acc : List JVal) (v : JVal) :
    v ∈ xs.foldl (fun acc w => if w ∈ acc then acc else acc ++ [w]) acc ↔
      v ∈ acc ∨ v ∈ xs := by
  induction xs generalizing acc with
  | nil => simp
  | cons x xs ih =>
    simp only [List.foldl_cons, ih, List.mem_cons]
    by_cases hx : x ∈ acc
    · simp only [if_pos hx]
      constructor
      · rintro (h | h)
        · exact Or.inl h
        · exact Or.inr (Or.inr h)
      · rintro (h | h | h)
        · exact Or.inl h
        · exact Or.inl (h ▸ hx)
        · exact Or.inr h
    · simp only [if_neg hx, List.mem_append, List.mem_singleton]
      tauto

theorem mem_pyListSet (xs : List JVal) (v : JVal) : v ∈ pyListSet xs ↔ v ∈ xs := by
  simp [pyListSet, mem_foldl_pyListSet]

theorem nodup_foldl_pyListSet (xs : List JVal) (acc : List JVal) (h : acc.Nodup) :
    (xs.foldl (fun acc w => if w ∈ acc then acc else acc ++ [w]) acc).Nodup := by
  induction xs generalizing acc with
  | nil => simpa using h
  | cons x xs ih =>
    simp only [List.foldl_cons]
    by_cases hx : x ∈ acc
    · simpa [if_pos hx] using ih acc h
    · refine ih _ ?_
      simp [List.nodup_append, h, hx]

theorem nodup_pyListSet (xs : List JVal) : (pyListSet xs).Nodup :=
  nodup_foldl_pyListSet xs [] List.nodup_nil

/-! ### Lemmas about the parameter-processing loop -/

theorem processParam_snd (today : Nat) (st : List (String × QVal) × Bool) (p : Param) :
    (processParam today st p).2 =
      (st.2 || (decide (p.inLoc = "query") && decide (p.name = "chart"))) := by
  unfold processParam
  by_cases hq : p.inLoc = "query"
  · by_cases hs : p.name = "sort" ∨ p.name = "limit" ∨ p.name = "order"
    · have hc : p.name ≠ "chart" := by
        rcases hs with h | h | h <;> simp [h]
      simp [hq, hs, hc]
    · by_cases hc : p.name = "chart"
      · simp [hq, hs, hc]
      · simp [hq, hs, hc]
  · simp [hq]

theorem foldl_processParam_snd (today : Nat) (ps : List Param)
    (st : List (String × QVal) × Bool) :
    (ps.foldl (processParam today) st).2 =
      (st.2 || ps.any (fun p => decide (p.inLoc = "query") && decide (p.name = "chart"))) := by
  induction ps generalizing st with
  | nil => simp
  | cons p ps ih =>
    simp [List.foldl_cons, ih, processParam_snd, Bool.or_assoc]

theorem processParam_fst_not_query (today : Nat) (st : List (String × QVal) × Bool)
    (p : Param) (hq : p.inLoc ≠ "query") : (processParam today st p).1 = st.1 := by
  simp [processParam, hq]

theorem processParam_fst_skip (today : Nat) (st : List (String × QVal) × Bool)
    (p : Param)
    (hs : p.name = "sort" ∨ p.name = "limit" ∨ p.name = "order" ∨ p.name = "chart") :
    (processParam today st p).1 = st.1 := by
  unfold processParam
  by_cases hq : p.inLoc = "query"
  · rcases hs with h | h | h | h <;> simp [hq, h]
  · simp [hq]

theorem processParam_fst_of_name_ne (today : Nat) (st : List (String × QVal) × Bool)
    (p : Param) (n : String) (h : p.name ≠ n) :
    pyLookup (processParam today st p).1 n = pyLookup st.1 n := by
  unfold processParam
  by_cases hq : p.inLoc = "query"
  · by_cases hs : p.name = "sort" ∨ p.name = "limit" ∨ p.name = "order"
    · simp [hq, hs]
    · by_cases hc : p.name = "chart"
      · simp [hq, hs, hc]
      · by_cases hd : p.name = "start_date"
        · have hn : "start_date" ≠ n := hd ▸ h
          cases hcl : classifyParamSchema p.schema <;>
            simp [hq, hs, hc, hd, hcl, pyLookup_pyInsert_ne _ _ _ _ (Ne.symm hn),
              pyLookup_pyInsert_ne _ _ _ _ (Ne.symm (hd ▸ h))]
        · cases hcl : classifyParamSchema p.schema <;>
            simp [hq, hs, hc, hd, hcl, pyLookup_pyInsert_ne _ _ _ _ (Ne.symm h)]
  · simp [hq]

theorem processParam_fst_start_date (today : Nat) (st : List (String × QVal) × Bool)
    (p : Param) (hq : p.inLoc = "query") (hd : p.name = "start_date") :
    pyLookup (processParam today st p).1 "start_date" =
      some (.str (startDateStr today)) := by
  unfold processParam
  cases hcl : classifyParamSchema p.schema <;>
    simp [hq, hd, hcl, pyLookup_pyInsert_self]

theorem foldl_processParam_untouched (today : Nat) (ps : List Param)
    (st : List (String × QVal) × Bool) (n : String)
    (h : ∀ q ∈ ps, ¬(q.inLoc = "query" ∧ q.name = n)) :
    pyLookup (ps.foldl (processParam today) st).1 n = pyLookup st.1 n := by
  induction ps generalizing st with
  | nil => rfl
  | cons q ps ih =>
    have hq := h q (List.mem_cons_self q ps)
    have hstep : pyLookup (processParam today st q).1 n = pyLookup st.1 n := by
      by_cases hname : q.name = n
      · have hloc : q.inLoc ≠ "query" := fun hl => hq ⟨hl, hname⟩
        rw [processParam_fst_not_query today st q hloc]
      · exact processParam_fst_of_name_ne today st q n hname
    rw [List.foldl_cons, ih _ (fun q' hq' => h q' (List.mem_cons_of_mem q hq')), hstep]

theorem foldl_processParam_special_keys (today : Nat) (ps : List Param)
    (st : List (String × QVal) × Bool) (n : String)
    (hn : n = "sort" ∨ n = "limit" ∨ n = "order" ∨ n = "chart") :
    pyLookup (ps.foldl (processParam today) st).1 n = pyLookup st.1 n := by
  induction ps generalizing st with
  | nil => rfl
  | cons q ps ih =>
    have hstep : pyLookup (processParam today st q).1 n = pyLookup st.1 n := by
      by_cases hname : q.name = n
      · rw [processParam_fst_skip today st q (by rcases hn with h | h | h | h <;> simp [hname, h])]
      · exact processParam_fst_of_name_ne today st q n hname
    rw [List.foldl_cons, ih, hstep]

theorem foldl_processParam_start_date_preserved (today : Nat) (ps : List Param)
    (st : List (String × QVal) × Bool)
    (h : pyLookup st.1 "start_date" = some (.str (startDateStr today))) :
    pyLookup (ps.foldl (processParam today) st).1 "start_date" =
      some (.str (startDateStr today)) := by
  induction ps generalizing st with
  | nil => exact h
  | cons q ps ih =>
    rw [List.foldl_cons]
    refine ih _ ?_
    by_cases hname : q.name = "start_date"
    · by_cases hloc : q.inLoc = "query"
      · exact processParam_fst_start_date today st q hloc hname
      · rw [processParam_fst_not_query today st q hloc]; exact h
    · rw [processParam_fst_of_name_ne today st q _ hname]; exact h

theorem foldl_processParam_start_date_set (today : Nat) (ps : List Param)
    (st : List (String × QVal) × Bool)
    (h : ∃ p ∈ ps, p.inLoc = "query" ∧ p.name = "start_date") :
    pyLookup (ps.foldl (processParam today) st).1 "start_date" =
      some (.str (startDateStr today)) := by
  induction ps generalizing st with
  | nil => rcases h with ⟨p, hp, _⟩; cases hp
  | cons q ps ih =>
    rcases h with ⟨p, hp, hloc, hname⟩
    rcases List.mem_cons.mp hp with heq | hrest
    · subst heq
      rw [List.foldl_cons]
      exact foldl_processParam_start_date_preserved today ps _
        (processParam_fst_start_date today st p hloc hname)
    · rw [List.foldl_cons]
      exact ih _ ⟨p, hrest, hloc, hname⟩

theorem processParam_fst_normal (today : Nat) (st : List (String × QVal) × Bool)
    (p : Param) (hq : p.inLoc = "query")
    (hs : p.name ≠ "sort") (hl : p.name ≠ "limit") (ho : p.name ≠ "order")
    (hc : p.name ≠ "chart") (hd : p.name ≠ "start_date") :
    pyLookup (processParam today st p).1 p.name =
      match classifyParamSchema p.schema with
      | some v => some v
      | none => pyLookup st.1 p.name := by
  unfold processParam
  have hskip : ¬(p.name = "sort" ∨ p.name = "limit" ∨ p.name = "order") := by
    simp [hs, hl, ho]
  cases hcl : classifyParamSchema p.schema <;>
    simp [hq, hskip, hc, hd, hcl, pyLookup_pyInsert_self]

theorem get_query_schema_ok (openapi : OpenAPI) (route : String) (today : Nat)
    (methods : List (String × Operation)) (op : Operation)
    (h₁ : pyLookup openapi.paths route = some methods)
    (h₂ : pyLookup methods "get" = some op) :
    get_query_schema_for_widget openapi route today =
      .ok ({ optional := ((opParams op).foldl (processParam today) ([], false)).1
             chart := none },
           ((opParams op).foldl (processParam today) ([], false)).2) := by
  simp [get_query_schema_for_widget, h₁, h₂]

/-! ### Claim C7 -/

/-- C7: for every route and every query-location parameter named sort, limit
or order, that parameter is absent from the resulting query schema regardless
of its declared type; and when the route declares a query parameter named
chart, the returned has-chart flag is true while chart itself never appears
in the optional map of the query schema. -/
theorem C7_special_params (openapi : OpenAPI) (route : String) (today : Nat)
    (methods : List (String × Operation)) (op : Operation) (qs : Params) (hc : Bool)
    (h₁ : pyLookup openapi.paths route = some methods)
    (h₂ : pyLookup methods "get" = some op)
    (hok : get_query_schema_for_widget openapi route today = .ok (qs, hc)) :
    pyLookup qs.optional "sort" = none ∧ pyLookup qs.optional "limit" = none ∧
    pyLookup qs.optional "order" = none ∧ pyLookup qs.optional "chart" = none ∧
    ((∃ p ∈ opParams op, p.inLoc = "query" ∧ p.name = "chart") → hc = true) := by
  rw [get_query_schema_ok openapi route today methods op h₁ h₂] at hok
  simp only [Except.ok.injEq, Prod.mk.injEq] at hok
  obtain ⟨hqs, hhc⟩ := hok
  have hopt : qs.optional = ((opParams op).foldl (processParam today) ([], false)).1 := by
    rw [← hqs]
  have hnone : ∀ n : String,
      n = "sort" ∨ n = "limit" ∨ n = "order" ∨ n = "chart" →
      pyLookup qs.optional n = none := by
    intro n hn
    rw [hopt, foldl_processParam_special_keys today _ _ n hn]
    rfl
  refine ⟨hnone "sort" (by simp), hnone "limit" (by simp), hnone "order" (by simp),
    hnone "chart" (by simp), ?_⟩
  rintro ⟨p, hp, hploc, hpname⟩
  rw [← hhc, foldl_processParam_snd]
  have : (opParams op).any
      (fun p => decide (p.inLoc = "query") && decide (p.name = "chart")) = true := by
    rw [List.any_eq_true]
    exact ⟨p, hp, by simp [hploc, hpname]⟩
  simp [this]

/-- Concrete route operation with sort, chart and symbol query parameters. -/
def op7 : Operation :=
  { operationId := some "get_r"
    description := "r route"
    tags := ["equity"]
    parameters := some
      [ { name := "sort", inLoc := "query",
          schema := { enum := none, anyOf := none, type := some "string" } },
        { name := "chart", inLoc := "query",
          schema := { enum := none, anyOf := none, type := some "string" } },
        { name := "symbol", inLoc := "query",
          schema := { enum := none, anyOf := none, type := some "string" } } ]
    responses := [] }

/-- Method map of the concrete route for C7. -/
def ms7 : List (String × Operation) := [("get", op7)]

/-- Concrete interface description for C7. -/
def oa7 : OpenAPI := { paths := [("/api/r", ms7)], components := { schemas := [] } }

/-- Query schema computed for oa7: sort and chart are excluded, symbol kept. -/
def qs7 : Params := { optional := [("symbol", QVal.str "string")], chart := none }

theorem C7_witness :
    (get_query_schema_for_widget oa7 "/api/r" 19723 = .ok (qs7, true)) ∧
    (pyLookup qs7.optional "sort" = none ∧ pyLookup qs7.optional "limit" = none ∧
     pyLookup qs7.optional "order" = none ∧ pyLookup qs7.optional "chart" = none ∧
     ((∃ p ∈ opParams op7, p.inLoc = "query" ∧ p.name = "chart") → true = true)) :=
  ⟨rfl, C7_special_params oa7 "/api/r" 19723 ms7 op7 qs7 true (by decide) (by decide) rfl⟩

/-! ### Claim C8 -/

/-- C8: for every query parameter named start_date, whatever its declared
schema, its value in the resulting query schema equals the date 90 days
before generation time formatted YYYY-MM-DD; the result is a function of the
generation day, hence deterministic for a fixed generation time. -/
theorem C8_start_date_forced (openapi : OpenAPI) (route : String) (today : Nat)
    (methods : List (String × Operation)) (op : Operation) (qs : Params) (hc : Bool)
    (h₁ : pyLookup openapi.paths route = some methods)
    (h₂ : pyLookup methods "get" = some op)
    (hp : ∃ p ∈ opParams op, p.inLoc = "query" ∧ p.name = "start_date")
    (hok : get_query_schema_for_widget openapi route today = .ok (qs, hc)) :
    pyLookup qs.optional "start_date" = some (.str (startDateStr today)) := by
  rw [get_query_schema_ok openapi route today methods op h₁ h₂] at hok
  simp only [Except.ok.injEq, Prod.mk.injEq] at hok
  obtain ⟨hqs, _⟩ := hok
  have hopt : qs.optional = ((opParams op).foldl (processParam today) ([], false)).1 := by
    rw [← hqs]
  rw [hopt]
  exact foldl_processParam_start_date_set today _ _ hp

/-- Concrete route operation with a start_date query parameter declaring a
direct enum, which the post-processing must override. -/
def op8 : Operation :=
  { operationId := some "get_s"
    description := "s route"
    tags := ["economy"]
    parameters := some
      [ { name := "start_date", inLoc := "query",
          schema := { enum := some [.str "x"], anyOf := none, type := none } } ]
    responses := [] }

/-- Method map of the concrete route for C8. -/
def ms8 : List (String × Operation) := [("get", op8)]

/-- Concrete interface description for C8. -/
def oa8 : OpenAPI := { paths := [("/api/s", ms8)], components := { schemas := [] } }

/-- Query schema computed for oa8 at generation day 19723 (2024-01-01): the
declared enum is overridden by the date 90 days earlier. -/
def qs8 : Params := { optional := [("start_date", QVal.str "2023-10-03")], chart := none }

theorem C8_witness :
    (∃ p ∈ opParams op8, p.inLoc = "query" ∧ p.name = "start_date") ∧
    pyLookup qs8.optional "start_date" = some (.str (startDateStr 19723)) :=
  ⟨by decide,
    C8_start_date_forced oa8 "/api/s" 19723 ms8 op8 qs8 false (by decide) (by decide)
      (by decide) rfl⟩

/-! ### Claim C5 -/

theorem foldl_append_enums (subs : List ParamSubSchema) (init : List JVal) :
    subs.foldl (fun acc s => acc ++ (match s.enum with | some es => es | none => [])) init =
      init ++ (subs.map (fun s => s.enum.getD [])).flatten := by
  induction subs generalizing init with
  | nil => simp
  | cons s subs ih => cases hs : s.enum <;> simp [ih, hs, Option.getD]

theorem classify_anyOf (ps : ParamSchema) (subs : List ParamSubSchema)
    (henum : ps.enum = none) (hanyOf : ps.anyOf = some subs) :
    classifyParamSchema ps =
      (if (subs.map (fun s => s.enum.getD [])).flatten ≠ [] then
        some (.vals (pyListSet ((subs.map (fun s => s.enum.getD [])).flatten)))
       else if "string" ∈ subs.filterMap (fun s => s.type) then some (.str "string")
       else if "integer" ∈ subs.filterMap (fun s => s.type) then some (.int 0)
       else if "null" ∈ subs.filterMap (fun s => s.type) then some .null
       else none) := by
  unfold classifyParamSchema
  rw [henum, hanyOf]
  simp only [foldl_append_enums, List.nil_append]

theorem foldl_processParam_unique (today : Nat) (l₁ l₂ : List Param) (p : Param)
    (hq : p.inLoc = "query")
    (hs : p.name ≠ "sort") (hl : p.name ≠ "limit") (ho : p.name ≠ "order")
    (hcn : p.name ≠ "chart") (hd : p.name ≠ "start_date")
    (hothers : ∀ q ∈ l₁ ++ l₂, ¬(q.inLoc = "query" ∧ q.name = p.name)) :
    pyLookup (((l₁ ++ p :: l₂).foldl (processParam today) ([], false)).1) p.name =
      classifyParamSchema p.schema := by
  have h₁ : ∀ q ∈ l₁, ¬(q.inLoc = "query" ∧ q.name = p.name) := fun q hq' =>
    hothers q (List.mem_append.mpr (Or.inl hq'))
  have h₂ : ∀ q ∈ l₂, ¬(q.inLoc = "query" ∧ q.name = p.name) := fun q hq' =>
    hothers q (List.mem_append.mpr (Or.inr hq'))
  rw [List.foldl_append, List.foldl_cons]
  rw [foldl_processParam_untouched today l₂ _ _ h₂]
  rw [processParam_fst_normal today _ p hq hs hl ho hcn hd]
  cases hcl : classifyParamSchema p.schema with
  | none =>
    simp only
    rw [foldl_processParam_untouched today l₁ _ _ h₁]
    rfl
  | some v => simp only

/-- C5: for every query parameter whose type descriptor is an anyOf union and
whose name triggers no special handling: when some union member declares an
enum, the resulting value is the deduplicated union of all members enum
values; otherwise a placeholder is chosen with priority string before integer
before null over the member types, and a union matching none of these
contributes no entry. -/
theorem C5_anyOf_union (openapi : OpenAPI) (route : String) (today : Nat)
    (methods : List (String × Operation)) (op : Operation) (qs : Params) (hc : Bool)
    (l₁ l₂ : List Param) (p : Param) (subs : List ParamSubSchema)
    (h₁ : pyLookup openapi.paths route = some methods)
    (h₂ : pyLookup methods "get" = some op)
    (hps : opParams op = l₁ ++ p :: l₂)
    (hq : p.inLoc = "query")
    (hs : p.name ≠ "sort") (hl : p.name ≠ "limit") (ho : p.name ≠ "order")
    (hcn : p.name ≠ "chart") (hd : p.name ≠ "start_date")
    (hothers : ∀ q ∈ l₁ ++ l₂, ¬(q.inLoc = "query" ∧ q.name = p.name))
    (henum : p.schema.enum = none)
    (hanyOf : p.schema.anyOf = some subs)
    (hok : get_query_schema_for_widget openapi route today = .ok (qs, hc)) :
    ((subs.map (fun s => s.enum.getD [])).flatten ≠ [] →
      ∃ xs, pyLookup qs.optional p.name = some (.vals xs) ∧ xs.Nodup ∧
        xs.toFinset = ((subs.map (fun s => s.enum.getD [])).flatten).toFinset) ∧
    ((subs.map (fun s => s.enum.getD [])).flatten = [] →
      ("string" ∈ subs.filterMap (fun s => s.type) →
        pyLookup qs.optional p.name = some (.str "string")) ∧
      ("string" ∉ subs.filterMap (fun s => s.type) →
       "integer" ∈ subs.filterMap (fun s => s.type) →
        pyLookup qs.optional p.name = some (.int 0)) ∧
      ("string" ∉ subs.filterMap (fun s => s.type) →
       "integer" ∉ subs.filterMap (fun s => s.type) →
       "null" ∈ subs.filterMap (fun s => s.type) →
        pyLookup qs.optional p.name = some .null) ∧
      ("string" ∉ subs.filterMap (fun s => s.type) →
       "integer" ∉ subs.filterMap (fun s => s.type) →
       "null" ∉ subs.filterMap (fun s => s.type) →
        pyLookup qs.optional p.name = none)) := by
  rw [get_query_schema_ok openapi route today methods op h₁ h₂] at hok
  simp only [Except.ok.injEq, Prod.mk.injEq] at hok
  obtain ⟨hqs, _⟩ := hok
  have hkey : pyLookup qs.optional p.name = classifyParamSchema p.schema := by
    have hopt : qs.optional = ((opParams op).foldl (processParam today) ([], false)).1 := by
      rw [← hqs]
    rw [hopt, hps]
    exact foldl_processParam_unique today l₁ l₂ p hq hs hl ho hcn hd hothers
  rw [classify_anyOf p.schema subs henum hanyOf] at hkey
  constructor
  · intro hE
    rw [if_pos hE] at hkey
    refine ⟨pyListSet ((subs.map (fun s => s.enum.getD [])).flatten), hkey,
      nodup_pyListSet _, ?_⟩
    apply Finset.ext
    intro v
    simp [List.mem_toFinset, mem_pyListSet]
  · intro hE
    rw [if_neg (fun hne => hne hE)] at hkey
    refine ⟨?_, ?_, ?_, ?_⟩
    · intro hstr
      rwa [if_pos hstr] at hkey
    · intro hstr hint
      rwa [if_neg hstr, if_pos hint] at hkey
    · intro hstr hint hnull
      rwa [if_neg hstr, if_neg hint, if_pos hnull] at hkey
    · intro hstr hint hnull
      rwa [if_neg hstr, if_neg hint, if_neg hnull] at hkey

/-- Sub-descriptors of the anyOf union used by the C5 witness: one member
with a duplicated enum, one with a string type. -/
def subs5 : List ParamSubSchema :=
  [ { enum := some [.str "a", .str "b", .str "a"], type := none },
    { enum := none, type := some "string" } ]

/-- Concrete anyOf parameter for C5. -/
def p5 : Param :=
  { name := "level", inLoc := "query",
    schema := { enum := none, anyOf := some subs5, type := none } }

/-- Concrete route operation for C5. -/
def op5 : Operation :=
  { operationId := some "get_l"
    description := "l route"
    tags := ["economy"]
    parameters := some [p5]
    responses := [] }

/-- Method map of the concrete route for C5. -/
def ms5 : List (String × Operation) := [("get", op5)]

/-- Concrete interface description for C5. -/
def oa5 : OpenAPI := { paths := [("/api/l", ms5)], components := { schemas := [] } }

/-- Query schema computed for oa5: the enum union, deduplicated. -/
def qs5 : Params :=
  { optional := [("level", QVal.vals [.str "a", .str "b"])], chart := none }

theorem C5_witness :
    (get_query_schema_for_widget oa5 "/api/l" 19723 = .ok (qs5, false)) ∧
    (∃ xs, pyLookup qs5.optional "level" = some (.vals xs) ∧ xs.Nodup ∧
      xs.toFinset = ((subs5.map (fun s => s.enum.getD [])).flatten).toFinset) :=
  ⟨rfl,
    (C5_anyOf_union oa5 "/api/l" 19723 ms5 op5 qs5 false [] [] p5 subs5
      (by decide) (by decide) rfl rfl (by decide) (by decide) (by decide) (by decide)
      (by decide) (by decide) rfl rfl rfl).1 (by decide)⟩

/-! ### Claim C6 -/

theorem any_chart_iff (ps : List Param) :
    (ps.any (fun p => decide (p.inLoc = "query") && decide (p.name = "chart")) = true) ↔
      ∃ p ∈ ps, p.inLoc = "query" ∧ p.name = "chart" := by
  simp [List.any_eq_true]

/-- C6: a chart-variant descriptor is emitted for a route exactly when its
query parameters include one named chart, and every chart-variant descriptor
has the widgetId of its base descriptor suffixed with _chart, no table block,
the data key pointed at chart.content, and a chart block. -/
theorem C6_chart_variant (openapi : OpenAPI) (today : Nat)
    (colsIn : Option (List ColumnDef)) (route : String)
    (methods : List (String × Operation)) (op : Operation)
    (entries : List (String × WidgetConfig)) (colsOut : Option (List ColumnDef))
    (h₁ : pyLookup openapi.paths route = some methods)
    (h₂ : pyLookup methods "get" = some op)
    (hok : routeWidgets openapi today colsIn route = .ok (entries, colsOut)) :
    ((∃ p ∈ opParams op, p.inLoc = "query" ∧ p.name = "chart") →
      ∃ b c : String × WidgetConfig, entries = [b, c] ∧
        b.1 = b.2.widgetId ∧ c.1 = c.2.widgetId ∧
        c.2.widgetId = b.2.widgetId ++ "_chart" ∧
        c.2.data.table = none ∧
        c.2.data.dataKey = "chart.content" ∧
        c.2.data.chart = some { type := "line" }) ∧
    (¬(∃ p ∈ opParams op, p.inLoc = "query" ∧ p.name = "chart") →
      ∃ b : String × WidgetConfig, entries = [b] ∧ b.1 = b.2.widgetId) := by
  have hq := get_query_schema_ok openapi route today methods op h₁ h₂
  unfold routeWidgets at hok
  simp only [h₁, h₂, hq, foldl_processParam_snd, Bool.false_or, Bind.bind, Except.bind,
    pure, Except.pure] at hok
  cases hany : (opParams op).any
      (fun p => decide (p.inLoc = "query") && decide (p.name = "chart")) with
  | false =>
    rw [hany] at hok
    iterate 12 (all_goals (try split at hok))
    all_goals try (exact Bool.noConfusion ‹(false : Bool) = true›)
    all_goals try (cases hok)
    all_goals
      refine ⟨fun hex => absurd ((any_chart_iff (opParams op)).mpr hex)
          (by rw [hany]; exact fun h => Bool.noConfusion h),
        fun _ => ⟨_, rfl, ?_⟩⟩ <;> rfl
  | true =>
    rw [hany] at hok
    iterate 12 (all_goals (try split at hok))
    all_goals try (exact absurd rfl ‹¬(true : Bool) = true›)
    all_goals try (cases hok)
    all_goals
      refine ⟨fun _ => ⟨_, _, rfl, ?_, ?_, ?_, ?_, ?_, ?_⟩,
        fun hnex => absurd ((any_chart_iff (opParams op)).mp hany) hnex⟩ <;> rfl

/-- Results descriptor of the C6 witness schema. -/
def rdesc6 : PropDesc :=
  { title := none, type := none, format := none,
    anyOf := some [ { items := some { oneOf := some [ { ref := some "#/components/schemas/D6" } ] } } ] }

/-- Media object of the C6 witness response. -/
def media6 : MediaType :=
  { schema := some { ref := some "#/components/schemas/M6" } }

/-- Response object of the C6 witness operation. -/
def resp6 : RespObj := { content := some [("application/json", media6)] }

/-- Concrete route operation with a chart query parameter and a resolvable
response schema. -/
def op6 : Operation :=
  { operationId := some "get_c"
    description := "c route"
    tags := ["crypto"]
    parameters := some
      [ { name := "chart", inLoc := "query",
          schema := { enum := none, anyOf := none, type := some "string" } } ]
    responses := [("200", resp6)] }

/-- Method map of the concrete route for C6. -/
def ms6 : List (String × Operation) := [("get", op6)]

/-- Numeric property of the C6 witness data schema. -/
def propX6 : PropDesc :=
  { title := some "X", type := some "number", format := none, anyOf := none }

/-- Response-model schema of the C6 witness. -/
def schemaM6 : NamedSchema := { properties := some [("results", rdesc6)] }

/-- Data schema of the C6 witness. -/
def schemaD6 : NamedSchema := { properties := some [("x", propX6)] }

/-- Concrete interface description for C6. -/
def oa6 : OpenAPI :=
  { paths := [("/api/c", ms6)]
    components := { schemas := [("M6", schemaM6), ("D6", schemaD6)] } }

/-- Column definitions synthesized for oa6. -/
def cd6 : List ColumnDef :=
  [{ field := "x", headerName := "X", cellDataType := "number",
     chartDataType := "series", formatterFn := some "int" }]

/-- Base widget descriptor generated for oa6. -/
def wc6 : WidgetConfig :=
  { name := "OBB Get C", description := "c route", category := "Crypto",
    widgetType := "crypto", widgetId := "OBB get_c",
    params := { optional := [], chart := none }, endpoint := "api/c",
    gridData := { w := 20, h := 5 },
    data :=
      { dataKey := "results"
        table := some { showAll := true, columnsDefs := some cd6, index := none }
        chart := none }
    defaultViz := none }

/-- Chart-variant widget descriptor generated for oa6. -/
def wc6chart : WidgetConfig :=
  { name := "OBB Get C Chart", description := "c route", category := "Crypto",
    widgetType := "crypto", widgetId := "OBB get_c_chart",
    params := { optional := [], chart := some true }, endpoint := "api/c",
    gridData := { w := 20, h := 5 },
    data := { dataKey := "chart.content", table := none, chart := some { type := "line" } }
    defaultViz := some "chart" }

/-- Entries emitted for the single route of oa6. -/
def entries6 : List (String × WidgetConfig) :=
  [("OBB get_c", wc6), ("OBB get_c_chart", wc6chart)]

theorem C6_witness :
    (routeWidgets oa6 19723 none "/api/c" = .ok (entries6, some cd6)) ∧
    ((∃ p ∈ opParams op6, p.inLoc = "query" ∧ p.name = "chart") →
      ∃ b c : String × WidgetConfig, entries6 = [b, c] ∧
        b.1 = b.2.widgetId ∧ c.1 = c.2.widgetId ∧
        c.2.widgetId = b.2.widgetId ++ "_chart" ∧
        c.2.data.table = none ∧
        c.2.data.dataKey = "chart.content" ∧
        c.2.data.chart = some { type := "line" }) ∧
    (¬(∃ p ∈ opParams op6, p.inLoc = "query" ∧ p.name = "chart") →
      ∃ b : String × WidgetConfig, entries6 = [b] ∧ b.1 = b.2.widgetId) :=
  ⟨rfl, C6_chart_variant oa6 19723 none "/api/c" ms6 op6 entries6 (some cd6)
    (by decide) (by decide) rfl⟩

/-! ### Claim C1 -/

theorem columnDefOf_field (key : String) (prop : PropDesc) :
    (columnDefOf key prop).field = key := rfl

/-- C1: when the results descriptor resolves to at least one schema, the
synthesized column list is ok; its field set is the intersection of the
property key sets of all resolved schemas (the full key set of the single
schema when only one resolves), and each column definition is built from the
first resolved schema property of its field. -/
theorem C1_columns_intersection (openapi : OpenAPI) (d : PropDesc)
    (s0 : NamedSchema) (rest : List NamedSchema)
    (props0 : List (String × PropDesc)) (restProps : List (List (String × PropDesc)))
    (hres : resolveSchemas openapi (extractSchemaRefs d) = s0 :: rest)
    (hp0 : s0.properties = some props0)
    (hrest : rest.mapM (fun s => s.properties) = some restProps)
    (hnd : (props0.map Prod.fst).Nodup) :
    ∃ cds, data_schema_to_columns_defs openapi d = .ok cds ∧
      (∀ k : String, (∃ cd ∈ cds, cd.field = k) ↔
        (k ∈ props0.map Prod.fst ∧ ∀ ps ∈ restProps, k ∈ ps.map Prod.fst)) ∧
      (∀ cd ∈ cds, ∃ p, pyLookup props0 cd.field = some p ∧ cd = columnDefOf cd.field p) := by
  have hcds : data_schema_to_columns_defs openapi d =
      .ok ((if rest.isEmpty then props0
            else props0.filter (fun kv =>
              restProps.all (fun ps => ps.any (fun kv' => decide (kv'.1 = kv.1))))).map
        (fun kv => columnDefOf kv.1 kv.2)) := by
    simp only [data_schema_to_columns_defs, hres, hp0, hrest]
  have hmemE : ∀ kv : String × PropDesc,
      kv ∈ (if rest.isEmpty then props0
            else props0.filter (fun kv =>
              restProps.all (fun ps => ps.any (fun kv' => decide (kv'.1 = kv.1))))) ↔
        kv ∈ props0 ∧ ∀ ps ∈ restProps, kv.1 ∈ ps.map Prod.fst := by
    intro kv
    cases rest with
    | nil =>
      have hrp : restProps = [] := (Option.some.inj hrest).symm
      subst hrp
      simp
    | cons r rs =>
      simp only [List.isEmpty_cons, if_false, Bool.false_eq_true, List.mem_filter,
        List.all_eq_true, List.any_eq_true, decide_eq_true_eq, List.mem_map]
  refine ⟨_, hcds, fun k => ?_, fun cd hcd => ?_⟩
  · constructor
    · rintro ⟨cd, hcd, hfield⟩
      obtain ⟨kv, hkv, rfl⟩ := List.mem_map.mp hcd
      rw [columnDefOf_field] at hfield
      subst hfield
      obtain ⟨hmem, hall⟩ := (hmemE kv).mp hkv
      exact ⟨List.mem_map.mpr ⟨kv, hmem, rfl⟩, hall⟩
    · rintro ⟨hk, hall⟩
      obtain ⟨kv, hkv, hkv1⟩ := List.mem_map.mp hk
      subst hkv1
      refine ⟨columnDefOf kv.1 kv.2,
        List.mem_map.mpr ⟨kv, (hmemE kv).mpr ⟨hkv, hall⟩, rfl⟩, rfl⟩
  · obtain ⟨kv, hkv, rfl⟩ := List.mem_map.mp hcd
    obtain ⟨hmem, _⟩ := (hmemE kv).mp hkv
    refine ⟨kv.2, ?_, rfl⟩
    rw [columnDefOf_field]
    exact pyLookup_of_mem_nodup props0 kv.1 kv.2 (by cases kv; exact hmem) hnd

/-! ### Claim C9 -/

/-- C9: for every synthesized column definition, cellDataType is number when
the property type is number or integer (the type check wins even when a date
format co-occurs), else date when the format is date or date-time, else
text; chartDataType is series exactly when cellDataType is number and
category otherwise; and formatterFn is present exactly as date for date
columns and int for number columns; every column produced by the synthesizer
is of this shape. -/
theorem C9_column_type_mapping :
    (∀ (key : String) (prop : PropDesc),
      ((prop.type = some "number" ∨ prop.type = some "integer") →
        (columnDefOf key prop).cellDataType = "number") ∧
      (¬(prop.type = some "number" ∨ prop.type = some "integer") →
        (prop.format = some "date" ∨ prop.format = some "date-time") →
        (columnDefOf key prop).cellDataType = "date") ∧
      (¬(prop.type = some "number" ∨ prop.type = some "integer") →
        ¬(prop.format = some "date" ∨ prop.format = some "date-time") →
        (columnDefOf key prop).cellDataType = "text") ∧
      ((columnDefOf key prop).chartDataType = "series" ↔
        (columnDefOf key prop).cellDataType = "number") ∧
      ((columnDefOf key prop).chartDataType = "category" ↔
        ¬(columnDefOf key prop).cellDataType = "number") ∧
      ((columnDefOf key prop).formatterFn = some "date" ↔
        (columnDefOf key prop).cellDataType = "date") ∧
      ((columnDefOf key prop).formatterFn = some "int" ↔
        (columnDefOf key prop).cellDataType = "number") ∧
      ((columnDefOf key prop).formatterFn = none ↔
        (columnDefOf key prop).cellDataType = "text")) ∧
    (∀ (openapi : OpenAPI) (d : PropDesc) (cds : List ColumnDef),
      data_schema_to_columns_defs openapi d = .ok cds →
      ∀ cd ∈ cds, ∃ key prop, cd = columnDefOf key prop) := by
  constructor
  · intro key prop
    have hnum : (prop.type = some "number" ∨ prop.type = some "integer") ↔
        (prop.type.getD "string" = "number" ∨ prop.type.getD "string" = "integer") := by
      cases prop.type <;> simp
    have hcell : (columnDefOf key prop).cellDataType =
        (if prop.type.getD "string" = "number" ∨ prop.type.getD "string" = "integer"
         then "number"
         else if prop.format = some "date" ∨ prop.format = some "date-time" then "date"
         else "text") := by
      cases hF : prop.format <;> cases hT : prop.type <;>
        simp [columnDefOf, hT, hF, Option.getD]
    have hchart : (columnDefOf key prop).chartDataType =
        (if (columnDefOf key prop).cellDataType = "number" then "series"
         else "category") := rfl
    have hfmt : (columnDefOf key prop).formatterFn =
        (if (columnDefOf key prop).cellDataType = "date" then some "date"
         else if (columnDefOf key prop).cellDataType = "number" then some "int"
         else none) := rfl
    have htri : (columnDefOf key prop).cellDataType = "number" ∨
        (columnDefOf key prop).cellDataType = "date" ∨
        (columnDefOf key prop).cellDataType = "text" := by
      rw [hcell]
      split_ifs <;> simp
    refine ⟨fun h => ?_, fun h1 h2 => ?_, fun h1 h2 => ?_, ?_, ?_, ?_, ?_, ?_⟩
    · rw [hcell, if_pos (hnum.mp h)]
    · rw [hcell, if_neg (fun hh => h1 (hnum.mpr hh)), if_pos h2]
    · rw [hcell, if_neg (fun hh => h1 (hnum.mpr hh)), if_neg h2]
    · rcases htri with h | h | h <;> rw [hchart] <;> simp [h]
    · rcases htri with h | h | h <;> rw [hchart] <;> simp [h]
    · rcases htri with h | h | h <;> rw [hfmt] <;> simp [h]
    · rcases htri with h | h | h <;> rw [hfmt] <;> simp [h]
    · rcases htri with h | h | h <;> rw [hfmt] <;> simp [h]
  · intro openapi d cds hok
    simp only [data_schema_to_columns_defs] at hok
    iterate 5 (all_goals (try split at hok))
    all_goals try (cases hok)
    all_goals intro cd hcd
    all_goals
      first
        | exact absurd hcd (List.not_mem_nil _)
        | (obtain ⟨kv, hkv, rfl⟩ := List.mem_map.mp hcd
           exact ⟨kv.1, kv.2, rfl⟩)

/-- First property of the first C1 witness schema. -/
def propA1a : PropDesc := { title := some "A", type := some "integer", format := none, anyOf := none }

/-- Property shared by both C1 witness schemas, first-schema variant. -/
def propB1b : PropDesc := { title := none, type := some "string", format := none, anyOf := none }

/-- Property shared by both C1 witness schemas, second-schema variant with a
different type, showing first-schema precedence. -/
def propC1c : PropDesc := { title := none, type := some "string", format := some "date-time", anyOf := none }

/-- Properties of the first C1 witness schema. -/
def propsA1 : List (String × PropDesc) := [("a", propA1a), ("b", propB1b)]

/-- Properties of the second C1 witness schema. -/
def propsB1 : List (String × PropDesc) := [("b", propC1c), ("c", propA1a)]

/-- First resolved schema of the C1 witness. -/
def schemaA1 : NamedSchema := { properties := some propsA1 }

/-- Second resolved schema of the C1 witness. -/
def schemaB1 : NamedSchema := { properties := some propsB1 }

/-- References of the C1 witness results descriptor. -/
def oneOf1 : List RefObj :=
  [ { ref := some "#/components/schemas/A1" }, { ref := some "#/components/schemas/B1" } ]

/-- Results descriptor of the C1 witness. -/
def d1 : PropDesc :=
  { title := none, type := none, format := none,
    anyOf := some [ { items := some { oneOf := some oneOf1 } } ] }

/-- Concrete interface description for C1. -/
def oa1 : OpenAPI :=
  { paths := [], components := { schemas := [("A1", schemaA1), ("B1", schemaB1)] } }

theorem C1_witness :
    (resolveSchemas oa1 (extractSchemaRefs d1) = [schemaA1, schemaB1]) ∧
    (∃ cds, data_schema_to_columns_defs oa1 d1 = .ok cds ∧
      (∀ k : String, (∃ cd ∈ cds, cd.field = k) ↔
        (k ∈ propsA1.map Prod.fst ∧ ∀ ps ∈ [propsB1], k ∈ ps.map Prod.fst)) ∧
      (∀ cd ∈ cds, ∃ p, pyLookup propsA1 cd.field = some p ∧ cd = columnDefOf cd.field p)) :=
  ⟨rfl, C1_columns_intersection oa1 d1 schemaA1 [schemaB1] propsA1 [propsB1]
    rfl rfl rfl (by decide)⟩

/-- Property descriptor whose type is number while its format is date: the
number check wins. -/
def prop9 : PropDesc := { title := none, type := some "number", format := some "date", anyOf := none }

theorem C9_witness :
    ((prop9.type = some "number" ∨ prop9.type = some "integer") ∧
     (columnDefOf "p" prop9).cellDataType = "number") ∧
    ((columnDefOf "p" prop9).formatterFn = some "int" ↔
      (columnDefOf "p" prop9).cellDataType = "number") :=
  ⟨⟨Or.inl rfl, (C9_column_type_mapping.1 "p" prop9).1 (Or.inl rfl)⟩,
   (C9_column_type_mapping.1 "p" prop9).2.2.2.2.2.2.1⟩

/-! ### Claim C2 -/

/-- Operation matched by operationId whose response object has no content
key. -/
def op2 : Operation :=
  { operationId := some "get_x", description := "x route", tags := ["t"],
    parameters := none, responses := [("200", { content := none })] }

/-- Method map of the concrete route for C2. -/
def ms2 : List (String × Operation) := [("get", op2)]

/-- Concrete interface description for C2: the matched operation lacks the
responses 200 content chain. -/
def oa2 : OpenAPI := { paths := [("/api/x", ms2)], components := { schemas := [] } }

/-- C2 counterexample: the response-schema lookup raises (models the KeyError
of utils.py line 91) when a matched operation has no content entry, so the
transformation functions do not all tolerate absent optional data by
omission. -/
theorem C2_counterexample : get_data_schema_for_widget oa2 "get_x" = .error "KeyError content" := rfl

/-- C2 amended: query-schema extraction never raises once the route and its
get operation exist, a missing parameters list included; and column synthesis
yields the empty list, without raising, whenever no referenced schema
resolves, which covers malformed anyOf and oneOf nesting and missing
components.schemas entries.  The response-schema lookup is the exception
refuted by the counterexample. -/
theorem C2_amended_tolerance :
    (∀ (openapi : OpenAPI) (route : String) (today : Nat)
      (methods : List (String × Operation)) (op : Operation),
      pyLookup openapi.paths route = some methods →
      pyLookup methods "get" = some op →
      ∃ r, get_query_schema_for_widget openapi route today = .ok r) ∧
    (∀ (openapi : OpenAPI) (d : PropDesc),
      resolveSchemas openapi (extractSchemaRefs d) = [] →
      data_schema_to_columns_defs openapi d = .ok []) := by
  constructor
  · intro openapi route today methods op h₁ h₂
    exact ⟨_, get_query_schema_ok openapi route today methods op h₁ h₂⟩
  · intro openapi d hres
    simp [data_schema_to_columns_defs, hres]

/-- Malformed results descriptor: the anyOf member has no items key, so no
reference is extracted. -/
def dEmpty2 : PropDesc :=
  { title := none, type := none, format := none, anyOf := some [ { items := none } ] }

theorem C2_amended_witness :
    (∃ r, get_query_schema_for_widget oa2 "/api/x" 19723 = .ok r) ∧
    data_schema_to_columns_defs oa2 dEmpty2 = .ok [] :=
  ⟨C2_amended_tolerance.1 oa2 "/api/x" 19723 ms2 op2 (by decide) (by decide),
   C2_amended_tolerance.2 oa2 dEmpty2 rfl⟩

/-! ### Claim C3 -/

/-- Date property of the C3 schema. -/
def pd3 : PropDesc := { title := none, type := some "string", format := some "date", anyOf := none }

/-- Results descriptor of the C3 schema. -/
def rdesc3 : PropDesc :=
  { title := none, type := none, format := none,
    anyOf := some [ { items := some { oneOf := some [ { ref := some "#/components/schemas/D3" } ] } } ] }

/-- Media object of the C3 response. -/
def media3 : MediaType := { schema := some { ref := some "#/components/schemas/M3" } }

/-- Response object of the C3 operation. -/
def resp3 : RespObj := { content := some [("application/json", media3)] }

/-- Concrete route operation for C3 whose data schema has a date column. -/
def op3 : Operation :=
  { operationId := some "get_q", description := "q route", tags := ["equity"],
    parameters := none, responses := [("200", resp3)] }

/-- Method map of the concrete route for C3. -/
def ms3 : List (String × Operation) := [("get", op3)]

/-- Concrete interface description for C3. -/
def oa3 : OpenAPI :=
  { paths := [("/api/q", ms3)]
    components := { schemas :=
      [("M3", { properties := some [("results", rdesc3)] }),
       ("D3", { properties := some [("date", pd3)] })] } }

/-- Column definitions synthesized for oa3: one column with field date. -/
def cd3 : List ColumnDef :=
  [{ field := "date", headerName := "Date", cellDataType := "date",
     chartDataType := "category", formatterFn := some "date" }]

/-- Widget descriptor generated for oa3. -/
def wc3 : WidgetConfig :=
  { name := "OBB Get Q", description := "q route", category := "Equity",
    widgetType := "equity", widgetId := "OBB get_q",
    params := { optional := [], chart := none }, endpoint := "api/q",
    gridData := { w := 20, h := 5 },
    data :=
      { dataKey := "results"
        table := some { showAll := true, columnsDefs := some cd3, index := none }
        chart := none }
    defaultViz := none }

/-- C3 evidence: on a route whose column list contains a column with field
date, the generated table block has no index at all, because the membership
tests of main.py lines 75 and 77 compare the strings date and period with
column-definition dicts, which is always false; the table index is therefore
never set.  The last conjunct records that every such membership test is
constantly false. -/
theorem C3_index_never_set :
    widgets_json oa3 19723 = .ok [("OBB get_q", wc3)] ∧
    wc3.data.table = some { showAll := true, columnsDefs := some cd3, index := none } ∧
    (∃ cd ∈ cd3, cd.field = "date") ∧
    (∀ (s : String) (defs : List ColumnDef), pyStrMemColumnsDefs s defs = false) :=
  ⟨rfl, rfl, by decide,
   fun s defs => by simp [pyStrMemColumnsDefs, pyStrEqColumnDef]⟩

/-! ### Claim C4 -/

/-- Media object of the C4 response. -/
def media4 : MediaType := { schema := some { ref := some "#/components/schemas/M4" } }

/-- Response object of the C4 operation. -/
def resp4 : RespObj := { content := some [("application/json", media4)] }

/-- Concrete route operation for C4 whose resolved schema lacks a results
property. -/
def op4 : Operation :=
  { operationId := some "get_y", description := "y route", tags := ["equity"],
    parameters := none, responses := [("200", resp4)] }

/-- Concrete interface description for C4: the resolved schema has no results
property, so the enrichment condition fails on the very first route. -/
def oa4 : OpenAPI :=
  { paths := [("/api/y", [("get", op4)])]
    components := { schemas := [("M4", { properties := some [] })] } }

/-- Concrete route operation for C4 whose response reference names a schema
absent from components.schemas. -/
def op4b : Operation :=
  { operationId := some "get_z", description := "z route", tags := ["equity"],
    parameters := none,
    responses := [("200", { content := some [("application/json",
      { schema := some { ref := some "#/components/schemas/Missing" } })] })] }

/-- Concrete interface description for the schema-name failure of C4. -/
def oa4b : OpenAPI :=
  { paths := [("/api/z", [("get", op4b)])], components := { schemas := [] } }

/-- C4 evidence: when response-schema enrichment fails on the first selected
route, the generation pass is fatal instead of emitting a base widget: with a
resolved schema lacking a results property the module-level columns_defs
variable is still unbound at main.py line 73 and a NameError is raised; with
a referenced schema name absent from components.schemas, utils.py line 97
raises a KeyError. -/
theorem C4_enrichment_failure_fatal :
    widgets_json oa4 19723 = .error "NameError columns_defs" ∧
    widgets_json oa4b 19723 = .error "KeyError schema name" :=
  ⟨rfl, rfl⟩

/-! ### Claim C10 -/

/-- Media object of the C10 response. -/
def media10 : MediaType := { schema := some { ref := some "#/components/schemas/M10" } }

/-- Response object of the C10 operation. -/
def resp10 : RespObj := { content := some [("application/json", media10)] }

/-- Results descriptor of the C10 schema. -/
def rdesc10 : PropDesc :=
  { title := none, type := none, format := none,
    anyOf := some [ { items := some { oneOf := some [ { ref := some "#/components/schemas/D10" } ] } } ] }

/-- Numeric property of the C10 data schema. -/
def pd10 : PropDesc := { title := none, type := some "number", format := none, anyOf := none }

/-- Concrete route operation for C10 with a start_date query parameter. -/
def op10 : Operation :=
  { operationId := some "get_s"
    description := "s route"
    tags := ["economy"]
    parameters := some
      [ { name := "start_date", inLoc := "query",
          schema := { enum := none, anyOf := none, type := some "string" } } ]
    responses := [("200", resp10)] }

/-- Method map of the concrete route for C10. -/
def ms10 : List (String × Operation) := [("get", op10)]

/-- Concrete interface description for C10. -/
def oa10 : OpenAPI :=
  { paths := [("/api/s", ms10)]
    components := { schemas :=
      [("M10", { properties := some [("results", rdesc10)] }),
       ("D10", { properties := some [("v", pd10)] })] } }

/-- Column definitions synthesized for oa10. -/
def cd10 : List ColumnDef :=
  [{ field := "v", headerName := "V", cellDataType := "number",
     chartDataType := "series", formatterFn := some "int" }]

/-- Widget descriptor generated for oa10, parameterized by the start-date
string computed at generation time. -/
def wc10 (sd : String) : WidgetConfig :=
  { name := "OBB Get S", description := "s route", category := "Economy",
    widgetType := "economy", widgetId := "OBB get_s",
    params := { optional := [("start_date", QVal.str sd)], chart := none },
    endpoint := "api/s", gridData := { w := 20, h := 5 },
    data :=
      { dataKey := "results"
        table := some { showAll := true, columnsDefs := some cd10, index := none }
        chart := none }
    defaultViz := none }

/-- C10 counterexample: two runs of the pipeline over the unchanged interface
description at different generation times produce different mappings, because
the start_date default is recomputed from the current time; byte-identical
output is therefore not guaranteed for repeated runs. -/
theorem C10_counterexample : widgets_json oa10 19723 ≠ widgets_json oa10 20088 := by
  intro h
  have h1 : widgets_json oa10 19723 = .ok [("OBB get_s", wc10 "2023-10-03")] := rfl
  have h2 : widgets_json oa10 20088 = .ok [("OBB get_s", wc10 "2024-10-02")] := rfl
  rw [h1, h2] at h
  exact absurd (Except.ok.inj h) (by decide)

/-- C10 amended: for a fixed generation time the pipeline is a pure function
of the interface description, so two runs over the unchanged description at
the same generation time yield identical output mappings. -/
theorem C10_amended_deterministic (openapi : OpenAPI) (t₁ t₂ : Nat) (h : t₁ = t₂) :
    widgets_json openapi t₁ = widgets_json openapi t₂ := by rw [h]

theorem C10_amended_witness :
    (19723 = 19723) ∧ widgets_json oa10 19723 = widgets_json oa10 19723 :=
  ⟨rfl, C10_amended_deterministic oa10 19723 19723 rfl⟩

end OpenBBBackend
